import Mathlib

set_option maxHeartbeats 1000000
set_option maxRecDepth 4096

/-!
A verification development for the authentication core of the
asgardeo-auth-js SDK.  The TypeScript sources are shallowly embedded:
pure functions become Lean functions, the stateful data layer becomes
explicit state passing over `CoreState`, network traffic is passed in as
an explicit `HttpOutcome` argument, and promise rejection becomes the
`Except` monad.  Machine integers are `Nat` with explicit reduction
modulo `2 ^ 32` where SHA-256 needs 32-bit wrap-around.
-/

namespace AsgardeoModel

/-- JS template interpolation of a possibly-undefined string value:
`${x}` prints `"undefined"` when `x` is `undefined`. -/
def jsStr (o : Option String) : String := o.getD "undefined"

/-- JS truthiness of an optional string (`undefined` and `""` are falsy). -/
def optTruthy (o : Option String) : Bool := o.getD "" != ""

/-- JS `String.prototype.trim` whitespace. -/
def jsWs (c : Char) : Bool :=
  c = ' ' ∨ c = '\t' ∨ c = '\n' ∨ c = '\r' ∨ c = Char.ofNat 11 ∨ c = Char.ofNat 12

/-- The `s.trim()`: strip leading and trailing whitespace (kernel-evaluable
model of the library trim). -/
def strTrim (s : String) : String :=
  String.mk (((s.data.dropWhile jsWs).reverse.dropWhile jsWs).reverse)

/-- The recurring blank test `!e || e.trim().length === 0` on a value that
may be `undefined`. -/
def isBlankOpt (o : Option String) : Bool :=
  match o with
  | none => true
  | some s => (strTrim s).data.length == 0

/-- JS falsiness of an optional string (used for `!sessionData.refresh_token`). -/
def jsFalsyOpt (o : Option String) : Bool := o.getD "" == ""

/-! ## SHA-256 (the `fast-sha256` collaborator of `CryptoUtils.getCodeChallenge`)

A concrete executable implementation of FIPS 180-4 SHA-256 over byte
lists, with 32-bit words represented as `Nat` reduced modulo `2 ^ 32`. -/

/-- Reduce to a 32-bit word. -/
def w32 (n : Nat) : Nat := n % 4294967296

/-- Right rotation of a 32-bit word (the argument is assumed `< 2 ^ 32`). -/
def rotr32 (k x : Nat) : Nat := w32 ((x >>> k) ||| (x <<< (32 - k)))

/-- SHA-256 Σ₀. -/
def bigS0 (x : Nat) : Nat := rotr32 2 x ^^^ rotr32 13 x ^^^ rotr32 22 x

/-- SHA-256 Σ₁. -/
def bigS1 (x : Nat) : Nat := rotr32 6 x ^^^ rotr32 11 x ^^^ rotr32 25 x

/-- SHA-256 σ₀. -/
def smallS0 (x : Nat) : Nat := rotr32 7 x ^^^ rotr32 18 x ^^^ (x >>> 3)

/-- SHA-256 σ₁. -/
def smallS1 (x : Nat) : Nat := rotr32 17 x ^^^ rotr32 19 x ^^^ (x >>> 10)

/-- SHA-256 Ch, with bitwise NOT expressed as XOR with the 32-bit mask. -/
def chF (x y z : Nat) : Nat := (x &&& y) ^^^ ((x ^^^ 4294967295) &&& z)

/-- SHA-256 Maj. -/
def majF (x y z : Nat) : Nat := (x &&& y) ^^^ (x &&& z) ^^^ (y &&& z)

/-- The 64 SHA-256 round constants. -/
def sha256K : List Nat :=
  [1116352408, 1899447441, 3049323471, 3921009573, 961987163, 1508970993,
   2453635748, 2870763221, 3624381080, 310598401, 607225278, 1426881987,
   1925078388, 2162078206, 2614888103, 3248222580, 3835390401, 4022224774,
   264347078, 604807628, 770255983, 1249150122, 1555081692, 1996064986,
   2554220882, 2821834349, 2952996808, 3210313671, 3336571891, 3584528711,
   113926993, 338241895, 666307205, 773529912, 1294757372, 1396182291,
   1695183700, 1986661051, 2177026350, 2456956037, 2730485921, 2820302411,
   3259730800, 3345764771, 3516065817, 3600352804, 4094571909, 275423344,
   430227734, 506948616, 659060556, 883997877, 958139571, 1322822218,
   1537002063, 1747873779, 1955562222, 2024104815, 2227730452, 2361852424,
   2428436474, 2756734187, 3204031479, 3329325298]

/-- The initial SHA-256 hash value. -/
def sha256H0 : List Nat :=
  [1779033703, 3144134277, 1013904242, 2773480762,
   1359893119, 2600822924, 528734635, 1541459225]

/-- SHA-256 padding: append `0x80`, zero bytes up to 56 mod 64, then the
bit length as an 8-byte big-endian integer. -/
def sha256Pad (msg : List Nat) : List Nat :=
  let len := msg.length
  let zeros := (120 - ((len + 1) % 64)) % 64
  msg ++ [0x80] ++ List.replicate zeros 0 ++
    (List.range 8).map (fun i => ((8 * len) >>> (8 * (7 - i))) &&& 255)

/-- Split a byte list into blocks of 64 bytes (fuel-based structural
recursion so the kernel can evaluate it; the fuel is the list length). -/
def chunks64Fuel : Nat → List Nat → List (List Nat)
  | 0, _ => []
  | _, [] => []
  | fuel + 1, l => l.take 64 :: chunks64Fuel fuel (l.drop 64)

/-- Split a byte list into blocks of 64 bytes. -/
def chunks64 (l : List Nat) : List (List Nat) := chunks64Fuel l.length l

/-- Read the sixteen 32-bit big-endian words of a 64-byte block. -/
def blockWords (block : List Nat) : Array Nat :=
  (Array.range 16).map (fun i =>
    (block.getD (4 * i) 0 <<< 24) ||| (block.getD (4 * i + 1) 0 <<< 16) |||
    (block.getD (4 * i + 2) 0 <<< 8) ||| block.getD (4 * i + 3) 0)

/-- Extend the 16 block words to the 64-entry message schedule. -/
def sha256Schedule (ws : Array Nat) : Array Nat :=
  (List.range 48).foldl
    (fun arr i =>
      arr.push (w32 (smallS1 (arr.getD (i + 14) 0) + arr.getD (i + 9) 0 +
        smallS0 (arr.getD (i + 1) 0) + arr.getD i 0)))
    ws

/-- The eight 32-bit working variables of the compression loop. -/
structure Sha256Work where
  a : Nat
  b : Nat
  c : Nat
  d : Nat
  e : Nat
  f : Nat
  g : Nat
  hh : Nat

/-- One SHA-256 compression round. -/
def sha256Round (w : Array Nat) (s : Sha256Work) (t : Nat) : Sha256Work :=
  let t1 := w32 (s.hh + bigS1 s.e + chF s.e s.f s.g + sha256K.getD t 0 + w.getD t 0)
  let t2 := w32 (bigS0 s.a + majF s.a s.b s.c)
  { a := w32 (t1 + t2), b := s.a, c := s.b, d := s.c,
    e := w32 (s.d + t1), f := s.e, g := s.f, hh := s.g }

/-- Process one 64-byte block, updating the 8-word hash state. -/
def sha256Block (hs : List Nat) (block : List Nat) : List Nat :=
  let w := sha256Schedule (blockWords block)
  let s0 : Sha256Work :=
    { a := hs.getD 0 0, b := hs.getD 1 0, c := hs.getD 2 0, d := hs.getD 3 0,
      e := hs.getD 4 0, f := hs.getD 5 0, g := hs.getD 6 0, hh := hs.getD 7 0 }
  let s := (List.range 64).foldl (sha256Round w) s0
  [w32 (hs.getD 0 0 + s.a), w32 (hs.getD 1 0 + s.b), w32 (hs.getD 2 0 + s.c),
   w32 (hs.getD 3 0 + s.d), w32 (hs.getD 4 0 + s.e), w32 (hs.getD 5 0 + s.f),
   w32 (hs.getD 6 0 + s.g), w32 (hs.getD 7 0 + s.hh)]

/-- SHA-256 of a byte list, as a 32-byte list. -/
def sha256Bytes (msg : List Nat) : List Nat :=
  let hs := (chunks64 (sha256Pad msg)).foldl sha256Block sha256H0
  (hs.map (fun h' => [(h' >>> 24) &&& 255, (h' >>> 16) &&& 255, (h' >>> 8) &&& 255, h' &&& 255])).flatten

/-! ## UTF-8 encoding (the `TextEncoder` collaborator) -/

/-- UTF-8 encoding of one Unicode scalar value. -/
def utf8EncodeChar (c : Nat) : List Nat :=
  if c < 0x80 then [c]
  else if c < 0x800 then [0xC0 ||| (c >>> 6), 0x80 ||| (c &&& 0x3F)]
  else if c < 0x10000 then
    [0xE0 ||| (c >>> 12), 0x80 ||| ((c >>> 6) &&& 0x3F), 0x80 ||| (c &&& 0x3F)]
  else
    [0xF0 ||| (c >>> 18), 0x80 ||| ((c >>> 12) &&& 0x3F),
     0x80 ||| ((c >>> 6) &&& 0x3F), 0x80 ||| (c &&& 0x3F)]

/-- UTF-8 encoding of a string (`new TextEncoder().encode(s)`). -/
def utf8Encode (s : String) : List Nat :=
  (s.data.map (fun c => utf8EncodeChar c.toNat)).flatten

/-! ## base64url encoding (the `base64url` npm collaborator) -/

/-- The base64url alphabet. -/
def b64Alphabet : List Char :=
  "ABCDEFGHIJKLMNOPQRSTUVWXYZabcdefghijklmnopqrstuvwxyz0123456789-_".data

/-- The base64url digit for a 6-bit value. -/
def b64Char (n : Nat) : Char := b64Alphabet.getD n 'A'

/-- Unpadded base64url encoding of a byte list, chunked in threes. -/
def b64UrlNoPadList : List Nat → List Char
  | [] => []
  | [a] => [b64Char (a >>> 2), b64Char ((a &&& 3) <<< 4)]
  | [a, b] =>
    [b64Char (a >>> 2), b64Char (((a &&& 3) <<< 4) ||| (b >>> 4)), b64Char ((b &&& 15) <<< 2)]
  | a :: b :: c :: rest =>
    b64Char (a >>> 2) :: b64Char (((a &&& 3) <<< 4) ||| (b >>> 4)) ::
      b64Char (((b &&& 15) <<< 2) ||| (c >>> 6)) :: b64Char (c &&& 63) :: b64UrlNoPadList rest

/-- The `base64url.encode`: URL-safe base64 without padding. -/
def b64UrlNoPad (bs : List Nat) : String := String.mk (b64UrlNoPadList bs)

/-- Global single-character replacement, modelling `.replace(/x/g, "y")`
for a one-character pattern and replacement. -/
def replaceAllChar (c d : Char) (s : String) : String :=
  String.mk (s.data.map (fun x => if x = c then d else x))

/-- Global single-character deletion, modelling `.replace(/x/g, "")`. -/
def removeAllChar (c : Char) (s : String) : String :=
  String.mk (s.data.filter (fun x => x ≠ c))

namespace CryptoUtils

/-- The `CryptoUtils.base64URLEncode`:
`base64url.encode(value).replace(/\+/g, "-").replace(/\//g, "_").replace(/=/g, "")`. -/
def base64URLEncode (bs : List Nat) : String :=
  removeAllChar '=' (replaceAllChar '/' '_' (replaceAllChar '+' '-' (b64UrlNoPad bs)))

/-- The `CryptoUtils.getCodeChallenge`:
`base64URLEncode(new Buffer(sha256(new TextEncoder().encode(verifier))))`. -/
def getCodeChallenge (verifier : String) : String :=
  base64URLEncode (sha256Bytes (utf8Encode verifier))

end CryptoUtils

/-- The `deriveCodeChallenge` as worded by the specification: the base64url
encoding, without padding, of the SHA-256 hash of the verifier's UTF-8
bytes.  Stated separately from `CryptoUtils.getCodeChallenge` so the two
can be compared. -/
def deriveCodeChallenge (verifier : String) : String :=
  b64UrlNoPad (sha256Bytes (utf8Encode verifier))

/-- RFC 7636 appendix B test vector for the code-challenge derivation. -/
example :
    CryptoUtils.getCodeChallenge "dBjftJeZ4CVP-mB92K27uhbUJU1p1r_wW1gFWFOEjXk" =
      "E9Melhoa2OwvFrEMTJguCHaoeK1t8URWbuGJSstw-cM" := by decide

/-! ## base64url decoding (`base64url.decode`, backed by `Buffer.from(_, "base64")`) -/

/-- The 6-bit value of a base64 digit; both the URL-safe and the standard
alphabet are accepted, as the library converts between the two before
decoding. -/
def b64Val (c : Char) : Option Nat :=
  if 'A' ≤ c ∧ c ≤ 'Z' then some (c.toNat - 65)
  else if 'a' ≤ c ∧ c ≤ 'z' then some (c.toNat - 97 + 26)
  else if '0' ≤ c ∧ c ≤ '9' then some (c.toNat - 48 + 52)
  else if c = '+' ∨ c = '-' then some 62
  else if c = '/' ∨ c = '_' then some 63
  else none

/-- Decode base64 digits in quartets into byte triples; a dangling final
group of 2 or 3 digits decodes to the 1 or 2 whole bytes it determines,
and a single leftover digit contributes nothing.  Total — the input has
already been cleaned of non-alphabet characters, so `getD 0` never
fires. -/
def b64DecodeGroups : List Char → List Nat
  | [a, b] =>
    [((b64Val a).getD 0 <<< 2) ||| ((b64Val b).getD 0 >>> 4)]
  | [a, b, c] =>
    [((b64Val a).getD 0 <<< 2) ||| ((b64Val b).getD 0 >>> 4),
     (((b64Val b).getD 0 &&& 15) <<< 4) ||| ((b64Val c).getD 0 >>> 2)]
  | a :: b :: c :: d :: rest =>
    (((b64Val a).getD 0 <<< 2) ||| ((b64Val b).getD 0 >>> 4)) ::
      ((((b64Val b).getD 0 &&& 15) <<< 4) ||| ((b64Val c).getD 0 >>> 2)) ::
      ((((b64Val c).getD 0 &&& 3) <<< 6) ||| (b64Val d).getD 0) :: b64DecodeGroups rest
  | _ => []

/-- Decoding as by `Buffer.from(_, "base64")`, the backend of
`base64url.decode` (Node decoder and browser buffer polyfill alike):
everything from the first `=` on is dropped, characters outside the
base64 alphabets are skipped rather than rejected, and the remaining
digits are decoded greedily.  It never fails. -/
def b64UrlDecodeBytes (s : String) : List Nat :=
  b64DecodeGroups
    ((s.data.takeWhile (fun c => c ≠ '=')).filter (fun c => (b64Val c).isSome))

/-! ## UTF-8 decoding with replacement characters (`Buffer.toString("utf8")`) -/

/-- Is a byte a UTF-8 continuation byte? -/
def utf8Cont (b : Nat) : Bool := 128 ≤ b ∧ b < 192

/-- The replacement character U+FFFD. -/
def replChar : Char := Char.ofNat 0xFFFD

/-- Lenient UTF-8 decoding: well-formed sequences decode to their scalar
value, malformed bytes become U+FFFD, as in Node's UTF-8 decoder.
Fuel-based recursion (the fuel is the byte count; at least one byte is
consumed per step). -/
def utf8DecodeLenientFuel : Nat → List Nat → List Char
  | 0, _ => []
  | _, [] => []
  | fuel + 1, b :: rest =>
    if b < 0x80 then Char.ofNat b :: utf8DecodeLenientFuel fuel rest
    else if 0xC2 ≤ b ∧ b ≤ 0xDF then
      match rest with
      | b2 :: rest2 =>
        if utf8Cont b2 then
          Char.ofNat (((b - 0xC0) <<< 6) ||| (b2 - 0x80)) :: utf8DecodeLenientFuel fuel rest2
        else replChar :: utf8DecodeLenientFuel fuel rest
      | [] => [replChar]
    else if 0xE0 ≤ b ∧ b ≤ 0xEF then
      match rest with
      | b2 :: b3 :: rest3 =>
        if (utf8Cont b2 ∧ utf8Cont b3) ∧
            (b ≠ 0xE0 ∨ 0xA0 ≤ b2) ∧ (b ≠ 0xED ∨ b2 < 0xA0) then
          Char.ofNat (((b - 0xE0) <<< 12) ||| ((b2 - 0x80) <<< 6) ||| (b3 - 0x80)) ::
            utf8DecodeLenientFuel fuel rest3
        else replChar :: utf8DecodeLenientFuel fuel rest
      | _ => replChar :: utf8DecodeLenientFuel fuel rest
    else if 0xF0 ≤ b ∧ b ≤ 0xF4 then
      match rest with
      | b2 :: b3 :: b4 :: rest4 =>
        if ((utf8Cont b2 ∧ utf8Cont b3) ∧ utf8Cont b4) ∧
            (b ≠ 0xF0 ∨ 0x90 ≤ b2) ∧ (b ≠ 0xF4 ∨ b2 < 0x90) then
          Char.ofNat (((b - 0xF0) <<< 18) ||| ((b2 - 0x80) <<< 12) |||
              ((b3 - 0x80) <<< 6) ||| (b4 - 0x80)) :: utf8DecodeLenientFuel fuel rest4
        else replChar :: utf8DecodeLenientFuel fuel rest
      | _ => replChar :: utf8DecodeLenientFuel fuel rest
    else replChar :: utf8DecodeLenientFuel fuel rest

/-- Lenient UTF-8 decoding of a byte list. -/
def utf8DecodeLenient (l : List Nat) : List Char := utf8DecodeLenientFuel l.length l

/-! ## JSON values and a strict JSON parser (the `JSON.parse` collaborator) -/

/-- JSON values.  Numbers keep their source lexeme: no claim depends on
numeric value semantics. -/
inductive Json where
  | null : Json
  | bool (b : Bool) : Json
  | num (lexeme : String) : Json
  | str (s : String) : Json
  | arr (elems : List Json) : Json
  | obj (members : List (String × Json)) : Json

/-- The object braces, named to keep brace characters out of literals. -/
def objOpen : Char := Char.ofNat 123

/-- Closing object brace. -/
def objClose : Char := Char.ofNat 125

/-- JSON insignificant whitespace. -/
def jsonWs (c : Char) : Bool := c = ' ' ∨ c = '\t' ∨ c = '\n' ∨ c = '\r'

/-- Skip insignificant whitespace. -/
def skipWs (l : List Char) : List Char := l.dropWhile jsonWs

/-- Four hex digits to a number. -/
def parseHex4 : List Char → Option (Nat × List Char)
  | a :: b :: c :: d :: rest => do
    let hv : Char → Option Nat := fun x =>
      if '0' ≤ x ∧ x ≤ '9' then some (x.toNat - 48)
      else if 'a' ≤ x ∧ x ≤ 'f' then some (x.toNat - 97 + 10)
      else if 'A' ≤ x ∧ x ≤ 'F' then some (x.toNat - 65 + 10)
      else none
    let va ← hv a
    let vb ← hv b
    let vc ← hv c
    let vd ← hv d
    pure ((((va <<< 4) ||| vb) <<< 8) ||| ((vc <<< 4) ||| vd), rest)
  | _ => none

/-- Parse the body of a JSON string literal after the opening quote,
returning the string content and the input after the closing quote.
Unpaired surrogate escapes become U+FFFD (Lean characters are scalar
values). -/
def parseJStringBody (fuel : Nat) (acc : List Char) (l : List Char) : Option (String × List Char) :=
  match fuel, l with
  | 0, _ => none
  | _, [] => none
  | fuel + 1, c :: rest =>
    if c = '"' then some (String.mk acc.reverse, rest)
    else if c = '\\' then
      match rest with
      | [] => none
      | e :: rest2 =>
        if e = '"' then parseJStringBody fuel ('"' :: acc) rest2
        else if e = '\\' then parseJStringBody fuel ('\\' :: acc) rest2
        else if e = '/' then parseJStringBody fuel ('/' :: acc) rest2
        else if e = 'b' then parseJStringBody fuel (Char.ofNat 8 :: acc) rest2
        else if e = 'f' then parseJStringBody fuel (Char.ofNat 12 :: acc) rest2
        else if e = 'n' then parseJStringBody fuel ('\n' :: acc) rest2
        else if e = 'r' then parseJStringBody fuel ('\r' :: acc) rest2
        else if e = 't' then parseJStringBody fuel ('\t' :: acc) rest2
        else if e = 'u' then
          match parseHex4 rest2 with
          | none => none
          | some (n, rest3) =>
            if 0xD800 ≤ n ∧ n ≤ 0xDBFF then
              match rest3 with
              | '\\' :: 'u' :: rest4 =>
                match parseHex4 rest4 with
                | some (n2, rest5) =>
                  if 0xDC00 ≤ n2 ∧ n2 ≤ 0xDFFF then
                    parseJStringBody fuel
                      (Char.ofNat (0x10000 + ((n - 0xD800) <<< 10) + (n2 - 0xDC00)) :: acc) rest5
                  else parseJStringBody fuel (Char.ofNat n2 :: replChar :: acc) rest5
                | none => none
              | _ => parseJStringBody fuel (replChar :: acc) rest3
            else if 0xDC00 ≤ n ∧ n ≤ 0xDFFF then
              parseJStringBody fuel (replChar :: acc) rest3
            else parseJStringBody fuel (Char.ofNat n :: acc) rest3
        else none
    else if c.toNat < 0x20 then none
    else parseJStringBody fuel (c :: acc) rest

/-- Digit test. -/
def isDigitCh (c : Char) : Bool := '0' ≤ c ∧ c ≤ '9'

/-- Parse one or more digits, returning them and the rest. -/
def parseDigits (l : List Char) : Option (List Char × List Char) :=
  let ds := l.takeWhile isDigitCh
  if ds.isEmpty then none else some (ds, l.drop ds.length)

/-- Parse a JSON number lexeme. -/
def parseNumberLex (l : List Char) : Option (List Char × List Char) := do
  let (sign, l1) := match l with
    | '-' :: rest => (['-'], rest)
    | _ => (([] : List Char), l)
  let (intPart, l2) ← match l1 with
    | '0' :: rest => some (['0'], rest)
    | _ => do
      let (ds, rest) ← parseDigits l1
      pure (ds, rest)
  let (fracPart, l3) ← match l2 with
    | '.' :: rest => do
      let (ds, rest2) ← parseDigits rest
      pure ('.' :: ds, rest2)
    | _ => pure (([] : List Char), l2)
  let (expPart, l4) ← match l3 with
    | e :: rest =>
      if e = 'e' ∨ e = 'E' then
        match rest with
        | s :: rest2 =>
          if s = '+' ∨ s = '-' then do
            let (ds, rest3) ← parseDigits rest2
            pure (e :: s :: ds, rest3)
          else do
            let (ds, rest3) ← parseDigits rest
            pure (e :: ds, rest3)
        | [] => none
      else pure (([] : List Char), l3)
    | [] => pure (([] : List Char), l3)
  pure (sign ++ intPart ++ fracPart ++ expPart, l4)

mutual

/-- Fuel-indexed recursive-descent JSON value parser. -/
def parseValue : Nat → List Char → Option (Json × List Char)
  | 0, _ => none
  | fuel + 1, l =>
    match skipWs l with
    | [] => none
    | c :: rest =>
      if c = 'n' then
        match rest with
        | 'u' :: 'l' :: 'l' :: rest2 => some (Json.null, rest2)
        | _ => none
      else if c = 't' then
        match rest with
        | 'r' :: 'u' :: 'e' :: rest2 => some (Json.bool true, rest2)
        | _ => none
      else if c = 'f' then
        match rest with
        | 'a' :: 'l' :: 's' :: 'e' :: rest2 => some (Json.bool false, rest2)
        | _ => none
      else if c = '"' then
        match parseJStringBody rest.length [] rest with
        | some (s, rest2) => some (Json.str s, rest2)
        | none => none
      else if c = '[' then
        match skipWs rest with
        | ']' :: rest2 => some (Json.arr [], rest2)
        | l2 => match parseElems fuel l2 with
          | some (es, rest2) => some (Json.arr es, rest2)
          | none => none
      else if c = objOpen then
        match skipWs rest with
        | c2 :: rest2 =>
          if c2 = objClose then some (Json.obj [], rest2)
          else match parseMembers fuel (c2 :: rest2) with
            | some (ms, rest3) => some (Json.obj ms, rest3)
            | none => none
        | [] => none
      else
        match parseNumberLex (c :: rest) with
        | some (lex, rest2) => some (Json.num (String.mk lex), rest2)
        | none => none

/-- Parse comma-separated array elements up to the closing bracket. -/
def parseElems : Nat → List Char → Option (List Json × List Char)
  | 0, _ => none
  | fuel + 1, l => do
    let (v, rest) ← parseValue fuel l
    match skipWs rest with
    | ',' :: rest2 => do
      let (vs, rest3) ← parseElems fuel rest2
      pure (v :: vs, rest3)
    | ']' :: rest2 => pure ([v], rest2)
    | _ => none

/-- Parse comma-separated object members up to the closing brace. -/
def parseMembers : Nat → List Char → Option (List (String × Json) × List Char)
  | 0, _ => none
  | fuel + 1, l =>
    match skipWs l with
    | '"' :: rest => do
      let (k, rest2) ← parseJStringBody rest.length [] rest
      match skipWs rest2 with
      | ':' :: rest3 => do
        let (v, rest4) ← parseValue fuel rest3
        match skipWs rest4 with
        | ',' :: rest5 => do
          let (ms, rest6) ← parseMembers fuel rest5
          pure ((k, v) :: ms, rest6)
        | c :: rest5 =>
          if c = objClose then pure ([(k, v)], rest5) else none
        | [] => none
      | _ => none
    | _ => none

end

/-- The `JSON.parse`: parse a complete JSON document, allowing surrounding
whitespace only. -/
def jsonParse (s : String) : Option Json :=
  match parseValue (s.data.length + 1) s.data with
  | some (j, rest) => if skipWs rest = [] then some j else none
  | none => none

/-! ## The error values thrown or rejected by the SDK

The exception classes (`AsgardeoAuthException`, `AsgardeoAuthNetworkException`)
live outside `src/`; they are modelled as plain data carrying the
constructor arguments that appear at every throw site in the sources
(long human-readable description strings are elided, and the native JS
errors wrapped as causes are not modelled).  `axiosError` stands for the
error object axios rejects with on transport failure or non-2xx status. -/

inductive JsError where
  | authException (code component method : String) (message : Option String)
      (cause : Option JsError) : JsError
  | networkException (code component method message : String) (errorCode : String)
      (errorMessage : Option String) (status : Option Nat) (data : Option String) : JsError
  | axiosError (code : Option String) (message : Option String) (status : Option Nat)
      (data : Option String) : JsError

/-- The `error?.code` read by the catch handlers. -/
def JsError.jsCode : JsError → Option String
  | .authException c _ _ _ _ => some c
  | .networkException c _ _ _ _ _ _ _ => some c
  | .axiosError c _ _ _ => c

/-- The `error?.message` read by the catch handlers. -/
def JsError.jsMessage : JsError → Option String
  | .authException _ _ _ m _ => m
  | .networkException _ _ _ m _ _ _ _ => some m
  | .axiosError _ m _ _ => m

/-- The `error?.response?.status` read by the catch handlers (only an
axios transport error carries a response). -/
def JsError.respStatus : JsError → Option Nat
  | .axiosError _ _ s _ => s
  | _ => none

/-- The `error?.response?.data` read by the catch handlers. -/
def JsError.respData : JsError → Option String
  | .axiosError _ _ _ d => d
  | _ => none

/-- Shorthand for an `AsgardeoAuthException` raised by the authentication
core with no cause. -/
def coreExc (code method message : String) : JsError :=
  .authException code "authentication-core" method (some message) none

/-- The error every failing path of `CryptoUtils.decodeIDToken` wraps its
caught exception into. -/
def tokenDecodingError : JsError :=
  .authException "CRYPTO_UTIL-DIT-IV01" "crypto-utils" "decodeIDToken"
    (some "Decoding ID token failed.") none

/-- Split a character list at every occurrence of a separator character
(`"a..b".split(".")` gives `["a", "", "b"]`, and splitting the empty
string gives `[""]`, as in JS). -/
def splitOnCharAux (c : Char) : List Char → List Char → List (List Char)
  | [], acc => [acc.reverse]
  | x :: xs, acc =>
    if x = c then acc.reverse :: splitOnCharAux c xs []
    else splitOnCharAux c xs (x :: acc)

/-- The `s.split(c)` for a one-character separator. -/
def splitOnChar (c : Char) (l : List Char) : List (List Char) := splitOnCharAux c l []

namespace CryptoUtils

/-- The `CryptoUtils.decodeIDToken`: split on `.`, base64url-decode the
middle segment, decode the bytes as UTF-8, `JSON.parse` the result.  The
throwing paths inside the `try` — the absent middle segment fed to the
decoder, and `JSON.parse` on anything that is not JSON — are caught and
rethrown as the token-decoding error.  The base64url decoding itself
never throws: the backing Buffer decoder skips characters outside the
base64 alphabets. -/
def decodeIDToken (idToken : String) : Except JsError Json :=
  match (splitOnChar '.' idToken.data).get? 1 with
  | none => .error tokenDecodingError
  | some seg =>
    match jsonParse (String.mk (utf8DecodeLenient (b64UrlDecodeBytes (String.mk seg)))) with
    | none => .error tokenDecodingError
    | some payload => .ok payload

end CryptoUtils

/-- Decoding the canonical `\x7b"sub":"1"\x7d` payload segment. -/
example :
    CryptoUtils.decodeIDToken "e30.eyJzdWIiOiIxIn0.c2ln" =
      .ok (Json.obj [("sub", Json.str "1")]) := by rfl

/-- A non-JSON middle segment fails with the token-decoding error. -/
example : CryptoUtils.decodeIDToken "a.bm90anNvbg.c" = .error tokenDecodingError := by rfl

/-- A middle segment with a non-base64url character decodes like the
program does: the invalid character is skipped (`e30!` decodes as `e30`,
the empty claim map), no error is raised. -/
example : CryptoUtils.decodeIDToken "h.e30!.s" = .ok (Json.obj []) := by rfl

/-! ## The data model: configuration, metadata, session and temporary data -/

/-- The `OIDCProviderMetaData` (the fields used by the authentication core);
all fields optional, absent before metadata resolution. -/
structure OIDCProviderMetaData where
  issuer : Option String := none
  authorization_endpoint : Option String := none
  token_endpoint : Option String := none
  revocation_endpoint : Option String := none
  end_session_endpoint : Option String := none
  jwks_uri : Option String := none
  userinfo_endpoint : Option String := none
  introspection_endpoint : Option String := none
  registration_endpoint : Option String := none
  check_session_iframe : Option String := none

/-- The `AuthClientConfig`: the configuration record read through
`getConfigData`.  `serverOrigin` is the configured base URL used for
well-known discovery and fallback endpoints; `endpoints` holds the
explicit endpoint overrides. -/
structure AuthClientConfig where
  clientID : String
  clientSecret : Option String := none
  signInRedirectURL : String
  signOutRedirectURL : Option String := none
  scope : List String := []
  responseMode : Option String := none
  prompt : Option String := none
  enablePKCE : Bool := true
  sendCookiesInRequests : Bool := true
  certificate : Option String := none
  serverOrigin : String := ""
  endpoints : OIDCProviderMetaData := {}
  overrideWellEndpointConfig : Bool := false

/-- The `SessionData`: the token set stored after a successful exchange; all
fields absent before sign-in. -/
structure SessionData where
  access_token : Option String := none
  refresh_token : Option String := none
  id_token : Option String := none
  token_type : Option String := none
  expires_in : Option Nat := none
  scope : Option String := none
  session_state : Option String := none

/-- The `TemporaryData`: the PKCE verifier slot and the metadata-initiated flag. -/
structure TemporaryData where
  pkce_code_verifier : Option String := none
  op_config_initiated : Bool := false

/-- The whole data-layer state owned by one authentication context. -/
structure CoreState where
  config : AuthClientConfig
  metaData : OIDCProviderMetaData := {}
  session : SessionData := {}
  temp : TemporaryData := {}

/-- A standard token-endpoint success body. -/
structure TokenBody where
  access_token : String
  refresh_token : Option String := none
  id_token : String
  token_type : String
  expires_in : Nat
  scope : String
  session_state : Option String := none

/-- An HTTP request issued by the engine (method and the form headers are
fixed per call site and elided). -/
structure HttpRequest where
  url : String
  body : String
  withCredentials : Bool

/-- The outcome of one transport round-trip, supplied to each operation
as an explicit argument: either the server was reached and answered with
a status and body, or the transport failed. -/
inductive HttpOutcome (β : Type) where
  | reachable (status : Nat) (data : β) : HttpOutcome β
  | netDown (code message : Option String) : HttpOutcome β

/-- Axios resolution policy (default `validateStatus`): a 2xx response
resolves, any other status or a transport failure rejects with an axios
error. -/
def axiosResult {β : Type} : HttpOutcome β → Except JsError (Nat × β)
  | .reachable s d =>
    if 200 ≤ s ∧ s < 300 then .ok (s, d)
    else .error (.axiosError none none (some s) none)
  | .netDown c m => .error (.axiosError c m none none)

/-- The result of one engine operation: the settled promise, the
data-layer state after the call, and the network requests issued. -/
structure OpResult (α : Type) where
  result : Except JsError α
  state : CoreState
  requests : List HttpRequest

/-! ## A structural model of `new URL` and `URLSearchParams`

Scheme and host normalization is out of scope; a URL is split at its
first `?` into a base and a query association list.  Serialization
percent-encodes keys and values in the `application/x-www-form-urlencoded`
fashion, which is what `url.searchParams.append` + `toString()` do. -/

/-- Split a character list at the first occurrence of a character. -/
def splitAtFirst (c : Char) : List Char → List Char × Option (List Char)
  | [] => ([], none)
  | x :: xs =>
    if x = c then ([], some xs)
    else
      let p := splitAtFirst c xs
      (x :: p.1, p.2)

/-- Parse a query string into key-value pairs (split on `&`, each pair at
its first `=`; a pair with no `=` gets an empty value). -/
def parseQuery (q : List Char) : List (String × String) :=
  (splitOnChar '&' q).map (fun p =>
    let r := splitAtFirst '=' p
    (String.mk r.1, String.mk (r.2.getD [])))

/-- A URL as a base plus a query parameter list. -/
structure UrlParts where
  base : String
  query : List (String × String)

/-- Parse a URL string at its first `?`. -/
def parseURL (s : String) : UrlParts :=
  match splitAtFirst '?' s.data with
  | (b, none) => { base := String.mk b, query := [] }
  | (b, some q) => { base := String.mk b, query := parseQuery q }

/-- First value bound to a key in a query parameter list. -/
def lookupParam : List (String × String) → String → Option String
  | [], _ => none
  | (k, v) :: rest, key => if k = key then some v else lookupParam rest key

/-- An uppercase hexadecimal digit. -/
def hexDigit (n : Nat) : Char := "0123456789ABCDEF".data.getD n '0'

/-- The `application/x-www-form-urlencoded` serialization of one UTF-8 byte:
alphanumerics and `*-._` unchanged, space becomes `+`, anything else a
percent escape. -/
def formUrlEncodeByte (b : Nat) : String :=
  if (48 ≤ b ∧ b ≤ 57) ∨ (65 ≤ b ∧ b ≤ 90) ∨ (97 ≤ b ∧ b ≤ 122) ∨
      b = 42 ∨ b = 45 ∨ b = 46 ∨ b = 95 then String.mk [Char.ofNat b]
  else if b = 32 then "+"
  else String.mk ['%', hexDigit (b >>> 4), hexDigit (b &&& 15)]

/-- The `application/x-www-form-urlencoded` percent-encoding of a string, as
applied by `URLSearchParams` serialization to every key and value. -/
def formUrlEncode (s : String) : String :=
  String.join ((utf8Encode s).map formUrlEncodeByte)

/-- Serialize a query parameter list, percent-encoding keys and values. -/
def serializeQuery (ps : List (String × String)) : String :=
  String.intercalate "&" (ps.map (fun kv => formUrlEncode kv.1 ++ "=" ++ formUrlEncode kv.2))

/-- The `url.toString()`. -/
def serializeURL (u : UrlParts) : String :=
  u.base ++ (if u.query.isEmpty then "" else "?" ++ serializeQuery u.query)

/-! ## Helpers of the engine that live outside `src/`, modelled from the spec -/

/-- Modelled from the spec: the `SIGN_OUT_SUCCESS_PARAM` constant is not
under `src/`; the spec calls it "a fixed success marker" appended as the
`state` value of the sign-out URL. -/
def SIGN_OUT_SUCCESS_PARAM : String := "sign_out_success"

/-- Modelled from the spec: `AuthenticationHelper.resolveWellKnownEndpoint`
is not under `src/`; the spec derives the discovery URL as the configured
base issuer URL plus the fixed discovery suffix. -/
def resolveWellKnownEndpoint (cfg : AuthClientConfig) : String :=
  cfg.serverOrigin ++ "/.well-known/openid-configuration"

/-- An explicit override takes precedence over a discovered field. -/
def overrideField (o given : Option String) : Option String :=
  match o with
  | some v => some v
  | none => given

/-- Modelled from the spec: `AuthenticationHelper.resolveEndpoints` is not
under `src/`; the spec stores the parsed discovery document merged with
any explicit endpoint overrides from configuration, overrides taking
precedence. -/
def resolveEndpoints (cfg : AuthClientConfig) (data : OIDCProviderMetaData) :
    OIDCProviderMetaData :=
  { issuer := overrideField cfg.endpoints.issuer data.issuer,
    authorization_endpoint :=
      overrideField cfg.endpoints.authorization_endpoint data.authorization_endpoint,
    token_endpoint := overrideField cfg.endpoints.token_endpoint data.token_endpoint,
    revocation_endpoint :=
      overrideField cfg.endpoints.revocation_endpoint data.revocation_endpoint,
    end_session_endpoint :=
      overrideField cfg.endpoints.end_session_endpoint data.end_session_endpoint,
    jwks_uri := overrideField cfg.endpoints.jwks_uri data.jwks_uri,
    userinfo_endpoint := overrideField cfg.endpoints.userinfo_endpoint data.userinfo_endpoint,
    introspection_endpoint :=
      overrideField cfg.endpoints.introspection_endpoint data.introspection_endpoint,
    registration_endpoint :=
      overrideField cfg.endpoints.registration_endpoint data.registration_endpoint,
    check_session_iframe :=
      overrideField cfg.endpoints.check_session_iframe data.check_session_iframe }

/-- Modelled from the spec: `AuthenticationHelper.resolveFallbackEndpoints`
is not under `src/`; the spec maps each OIDC endpoint name to the
configured base URL plus a fixed path suffix (its examples:
`/oauth2/token`, `/oauth2/revoke`, `/oidc/logout`).  Fields the spec
names no suffix for stay absent. -/
def resolveFallbackEndpoints (cfg : AuthClientConfig) : OIDCProviderMetaData :=
  { issuer := none,
    authorization_endpoint := some (cfg.serverOrigin ++ "/oauth2/authorize"),
    token_endpoint := some (cfg.serverOrigin ++ "/oauth2/token"),
    revocation_endpoint := some (cfg.serverOrigin ++ "/oauth2/revoke"),
    end_session_endpoint := some (cfg.serverOrigin ++ "/oidc/logout"),
    jwks_uri := some (cfg.serverOrigin ++ "/oauth2/jwks"),
    userinfo_endpoint := none,
    introspection_endpoint := none,
    registration_endpoint := none,
    check_session_iframe := some (cfg.serverOrigin ++ "/oidc/checksession") }

/-- The SessionData record holding a token response body verbatim. -/
def sessionOfTokenBody (b : TokenBody) : SessionData :=
  { access_token := some b.access_token,
    refresh_token := b.refresh_token,
    id_token := some b.id_token,
    token_type := some b.token_type,
    expires_in := some b.expires_in,
    scope := some b.scope,
    session_state := b.session_state }

/-- Modelled from the spec: `AuthenticationHelper.handleTokenResponse` is
not under `src/`; spec §4.3 stores the raw token response body verbatim
as the new SessionData and returns the typed token result (storage is
pure state here, so the storage-failure wrap can not fire). -/
def handleTokenResponse (st : CoreState) (data : TokenBody) : TokenBody × CoreState :=
  (data, { st with session := sessionOfTokenBody data })

/-- Modelled from the spec: `AuthenticationHelper.clearUserSessionData` is
not under `src/`; the spec clears the SessionData record entirely on
sign-out or revoke. -/
def clearUserSessionData (st : CoreState) : CoreState := { st with session := {} }

/-! ## The error values of the embedded operations -/

/-- The `AUTH_CORE-GAU-NF01`. -/
def authEndpointNotFoundError : JsError :=
  coreExc "AUTH_CORE-GAU-NF01" "getAuthorizationURL" "No authorization endpoint found."

/-- The `AUTH_CORE-RAT1-NF01`. -/
def tokenEndpointNotFoundError : JsError :=
  coreExc "AUTH_CORE-RAT1-NF01" "requestAccessToken" "Token endpoint not found."

/-- The `AUTH_CORE-RAT2-NF01`. -/
def missingRefreshTokenError : JsError :=
  coreExc "AUTH_CORE-RAT2-NF01" "refreshAccessToken" "No refresh token found."

/-- The `AUTH_CORE-RAT2-NF02`. -/
def refreshEndpointNotFoundError : JsError :=
  coreExc "AUTH_CORE-RAT2-NF02" "refreshAccessToken" "No refresh token endpoint found."

/-- The `AUTH_CORE-RAT3-NF01`. -/
def revokeEndpointNotFoundError : JsError :=
  coreExc "AUTH_CORE-RAT3-NF01" "revokeAccessToken" "No revoke access token endpoint found."

/-- The `AUTH_CORE-RAT3-NR02`: the invalid-response exception constructed on
the non-200 branch of `revokeAccessToken` (its description, which embeds
the numeric status, is elided like all descriptions). -/
def revokeInvalidResponseError : JsError :=
  coreExc "AUTH_CORE-RAT3-NR02" "revokeAccessToken"
    "Invalid response status received for revoke access token request."

/-- The `AUTH_CORE-GSOU-NF01`. -/
def signOutEndpointNotFoundError : JsError :=
  coreExc "AUTH_CORE-GSOU-NF01" "getSignOutURL" "Sign-out endpoint not found."

/-- The `AUTH_CORE-GSOU-NF02`. -/
def signOutIdTokenNotFoundError : JsError :=
  coreExc "AUTH_CORE-GSOU-NF02" "getSignOutURL" "ID token not found."

/-- The `AUTH_CORE-GSOU-NF03`. -/
def signOutCallbackNotFoundError : JsError :=
  coreExc "AUTH_CORE-GSOU-NF03" "getSignOutURL" "No sign-out redirect URL found."

/-- An `AsgardeoAuthNetworkException` built by a trailing `.catch` handler
from the caught error, as at every network catch site. -/
def wrapNetwork (code method message : String) (e : JsError) : JsError :=
  .networkException code "authentication-core" method message
    (e.jsCode.getD "") e.jsMessage e.respStatus e.respData

/-! ## The request bodies (raw `key=value` strings joined with `&`) -/

/-- The conditional `client_secret` body entry
(`if (configData.clientSecret && configData.clientSecret.trim().length > 0)`). -/
def clientSecretParams (configData : AuthClientConfig) : List String :=
  match configData.clientSecret with
  | some cs => if (strTrim cs).data.length > 0 then ["client_secret=" ++ cs] else []
  | none => []

/-- The body entries pushed by `requestAccessToken` (the code reads the
stored PKCE verifier for the `code_verifier` entry, interpolating
`undefined` when the slot is empty). -/
def accessTokenRequestBody (configData : AuthClientConfig) (authorizationCode : String)
    (verifier : Option String) : List String :=
  ["client_id=" ++ configData.clientID] ++ clientSecretParams configData ++
    ["code=" ++ authorizationCode, "grant_type=authorization_code",
     "redirect_uri=" ++ configData.signInRedirectURL] ++
    (if configData.enablePKCE then ["code_verifier=" ++ jsStr verifier] else [])

/-- The body entries pushed by `refreshAccessToken`. -/
def refreshTokenRequestBody (configData : AuthClientConfig) (refreshToken : String) :
    List String :=
  ["client_id=" ++ configData.clientID, "refresh_token=" ++ refreshToken,
   "grant_type=refresh_token"] ++ clientSecretParams configData

/-- The body entries pushed by `revokeAccessToken`. -/
def revokeTokenRequestBody (configData : AuthClientConfig) (accessToken : Option String) :
    List String :=
  ["client_id=" ++ configData.clientID, "token=" ++ jsStr accessToken,
   "token_type_hint=access_token"]

namespace AuthenticationCore

/-- The `AuthenticationCore.getAuthorizationURL`, up to but excluding the
final `toString()`.  The fresh code verifier produced by
`CryptoUtils.getCodeVerifier()` is random and therefore an explicit
argument; `customParams` models the optional `AuthorizationURLParams`
object in entry order.  `configData.scope.push(OIDC_SCOPE)` mutates the
scope array held by the data layer, modelled as a config update in the
returned state. -/
def getAuthorizationRequest (st : CoreState) (codeVerifier : String)
    (customParams : List (String × String)) : Except JsError UrlParts × CoreState :=
  let authorizeEndpoint := st.metaData.authorization_endpoint
  let configData := st.config
  if isBlankOpt authorizeEndpoint then (.error authEndpointNotFoundError, st)
  else
    let url0 := parseURL (jsStr authorizeEndpoint)
    let scopePair : String × List String :=
      if configData.scope.length > 0 then
        let s := if configData.scope.contains "openid" then configData.scope
          else configData.scope ++ ["openid"]
        (String.intercalate " " s, s)
      else ("openid", configData.scope)
    let query :=
      url0.query ++
        [("response_type", "code"), ("client_id", configData.clientID),
         ("scope", scopePair.1), ("redirect_uri", configData.signInRedirectURL)] ++
        (if optTruthy configData.responseMode then
          [("response_mode", jsStr configData.responseMode)] else []) ++
        (if configData.enablePKCE then
          [("code_challenge_method", "S256"),
           ("code_challenge", CryptoUtils.getCodeChallenge codeVerifier)] else []) ++
        (if optTruthy configData.prompt then [("prompt", jsStr configData.prompt)] else []) ++
        customParams.filter (fun kv => kv.1 != "" && kv.2 != "")
    let st1 : CoreState :=
      { st with
        config := { configData with scope := scopePair.2 },
        temp := if configData.enablePKCE then
            { st.temp with pkce_code_verifier := some codeVerifier }
          else st.temp }
    (.ok { base := url0.base, query := query }, st1)

/-- The `AuthenticationCore.getAuthorizationURL` with the final `toString()`. -/
def getAuthorizationURL (st : CoreState) (codeVerifier : String)
    (customParams : List (String × String)) : Except JsError String × CoreState :=
  let r := getAuthorizationRequest st codeVerifier customParams
  (r.1.map serializeURL, r.2)

/-- The `AuthenticationCore.requestAccessToken`.  The session state is stored
and the PKCE verifier read and removed before the POST, so those state
changes survive a failing exchange. -/
def requestAccessToken (st : CoreState) (authorizationCode sessionState : String)
    (o : HttpOutcome TokenBody) : OpResult TokenBody :=
  let tokenEndpoint := st.metaData.token_endpoint
  let configData := st.config
  if isBlankOpt tokenEndpoint then
    { result := .error tokenEndpointNotFoundError, state := st, requests := [] }
  else
    let st1 := if sessionState != "" then
        { st with session := { st.session with session_state := some sessionState } }
      else st
    let verifier := st1.temp.pkce_code_verifier
    let st2 := if configData.enablePKCE then
        { st1 with temp := { st1.temp with pkce_code_verifier := none } }
      else st1
    let req : HttpRequest :=
      { url := jsStr tokenEndpoint,
        body := String.intercalate "&"
          (accessTokenRequestBody configData authorizationCode verifier),
        withCredentials := configData.sendCookiesInRequests }
    match axiosResult o with
    | .ok (_, data) =>
      let r := handleTokenResponse st2 data
      { result := .ok r.1, state := r.2, requests := [req] }
    | .error e =>
      { result := .error (wrapNetwork "AUTH_CORE-RAT1-NR03" "requestAccessToken"
          "Requesting access token failed" e),
        state := st2, requests := [req] }

/-- The `AuthenticationCore.refreshAccessToken`. -/
def refreshAccessToken (st : CoreState) (o : HttpOutcome TokenBody) : OpResult TokenBody :=
  let tokenEndpoint := st.metaData.token_endpoint
  let configData := st.config
  let sessionData := st.session
  if jsFalsyOpt sessionData.refresh_token then
    { result := .error missingRefreshTokenError, state := st, requests := [] }
  else if isBlankOpt tokenEndpoint then
    { result := .error refreshEndpointNotFoundError, state := st, requests := [] }
  else
    let req : HttpRequest :=
      { url := jsStr tokenEndpoint,
        body := String.intercalate "&"
          (refreshTokenRequestBody configData (jsStr sessionData.refresh_token)),
        withCredentials := configData.sendCookiesInRequests }
    match axiosResult o with
    | .ok (_, data) =>
      let r := handleTokenResponse st data
      { result := .ok r.1, state := r.2, requests := [req] }
    | .error e =>
      { result := .error (wrapNetwork "AUTH_CORE-RAT2-NR03" "refreshAccessToken"
          "Refresh access token request failed." e),
        state := st, requests := [req] }

/-- The `AuthenticationCore.revokeAccessToken`.  Note the promise shape
`.post(...).then(handler).catch(wrapper)`: a rejection raised inside the
`.then` handler (the non-200 branch) is also caught by the trailing
`.catch` and re-wrapped as a network exception. -/
def revokeAccessToken (st : CoreState) (o : HttpOutcome String) : OpResult (Nat × String) :=
  let revokeTokenEndpoint := st.metaData.revocation_endpoint
  let configData := st.config
  if isBlankOpt revokeTokenEndpoint then
    { result := .error revokeEndpointNotFoundError, state := st, requests := [] }
  else
    let req : HttpRequest :=
      { url := jsStr revokeTokenEndpoint,
        body := String.intercalate "&"
          (revokeTokenRequestBody configData st.session.access_token),
        withCredentials := configData.sendCookiesInRequests }
    match axiosResult o with
    | .ok (status, data) =>
      let thenStep : Except JsError (Nat × String) × CoreState :=
        if status != 200 then (.error revokeInvalidResponseError, st)
        else (.ok (status, data), clearUserSessionData st)
      match thenStep with
      | (.ok v, st1) => { result := .ok v, state := st1, requests := [req] }
      | (.error e, st1) =>
        { result := .error (wrapNetwork "AUTH_CORE-RAT3-NR03" "revokeAccessToken"
            "The request to revoke access token failed." e),
          state := st1, requests := [req] }
    | .error e =>
      { result := .error (wrapNetwork "AUTH_CORE-RAT3-NR03" "revokeAccessToken"
          "The request to revoke access token failed." e),
        state := st, requests := [req] }

/-- The `AuthenticationCore.getOIDCProviderMetaData`.  Both the non-200 branch
(whose `AUTH_CORE-GOPM-NR01` rejection is swallowed) and a transport
failure land in the trailing `.catch`, which stores the fallback
endpoints, sets the initiated flag and still resolves `true`. -/
def getOIDCProviderMetaData (st : CoreState) (forceInit : Bool)
    (o : HttpOutcome OIDCProviderMetaData) : OpResult Bool :=
  if !forceInit && st.temp.op_config_initiated then
    { result := .ok true, state := st, requests := [] }
  else
    let wellKnownEndpoint := resolveWellKnownEndpoint st.config
    let req : HttpRequest := { url := wellKnownEndpoint, body := "", withCredentials := false }
    let fallbackState : CoreState :=
      { st with
        metaData := resolveFallbackEndpoints st.config,
        temp := { st.temp with op_config_initiated := true } }
    match axiosResult o with
    | .ok (status, data) =>
      if status != 200 then { result := .ok true, state := fallbackState, requests := [req] }
      else
        { result := .ok true,
          state := { st with
            metaData := resolveEndpoints st.config data,
            temp := { st.temp with op_config_initiated := true } },
          requests := [req] }
    | .error _ => { result := .ok true, state := fallbackState, requests := [req] }

/-- The `AuthenticationCore.getSignOutURL` (a throw in the async function is a
rejection, hence `Except`). -/
def getSignOutURL (st : CoreState) : Except JsError String :=
  let logoutEndpoint := st.metaData.end_session_endpoint
  let configData := st.config
  if isBlankOpt logoutEndpoint then .error signOutEndpointNotFoundError
  else
    let idToken := st.session.id_token
    if isBlankOpt idToken then .error signOutIdTokenNotFoundError
    else
      let callbackURL := configData.signOutRedirectURL.getD configData.signInRedirectURL
      if (strTrim callbackURL).data.length == 0 then .error signOutCallbackNotFoundError
      else
        .ok (jsStr logoutEndpoint ++ "?id_token_hint=" ++ jsStr idToken ++
          "&post_logout_redirect_uri=" ++ callbackURL ++ "&state=" ++ SIGN_OUT_SUCCESS_PARAM)

/-- The `AuthenticationCore.signOut`: the sign-out URL plus the session-clear
side effect. -/
def signOut (st : CoreState) : Except JsError String × CoreState :=
  match getSignOutURL st with
  | .ok url => (.ok url, clearUserSessionData st)
  | .error e => (.error e, st)

/-- Iterated `getAuthorizationURL` calls against the same context, one
fresh verifier per call, no custom parameters. -/
def authIterate : Nat → CoreState → (Nat → String) → List (Except JsError UrlParts) × CoreState
  | 0, st, _ => ([], st)
  | n + 1, st, vs =>
    let r := getAuthorizationRequest st (vs 0) []
    let rest := authIterate n r.2 (fun i => vs (i + 1))
    (r.1 :: rest.1, rest.2)

end AuthenticationCore

/-! ## The transport client (`HttpsClient`) -/

/-- An `HttpsClient` instance: which data layer it was built for, the
trust anchor of its https agent, and the cookie policy of its axios
instance. -/
structure HttpsClientInst where
  ownerId : Nat
  agentCA : Option String
  withCredentials : Bool

/-- The instance `HttpsClient.getInstance` constructs when the static
slot is empty: the agent gets the configured certificate when one is set
(JS truthiness), and the axios instance the configured cookie policy. -/
def mkHttpsClient (dataLayerId : Nat) (cfg : AuthClientConfig) : HttpsClientInst :=
  if optTruthy cfg.certificate then
    { ownerId := dataLayerId, agentCA := cfg.certificate,
      withCredentials := cfg.sendCookiesInRequests }
  else
    { ownerId := dataLayerId, agentCA := none,
      withCredentials := cfg.sendCookiesInRequests }

namespace HttpsClient

/-- The `HttpsClient.getInstance`: the cache is the `private static
httpsClient` field, a single process-wide slot; `dataLayerId` is the
opaque identity of the calling context's data layer and `cfg` the
configuration that data layer holds.  Returns the instance handed to the
caller and the new content of the static slot. -/
def getInstance (cached : Option HttpsClientInst) (dataLayerId : Nat)
    (cfg : AuthClientConfig) : HttpsClientInst × Option HttpsClientInst :=
  match cached with
  | some c => (c, some c)
  | none =>
    let inst := mkHttpsClient dataLayerId cfg
    (inst, some inst)

end HttpsClient

/-! ## Shared lemmas -/

/-- A `getD` lookup is a member of the list or the default. -/
theorem getD_mem_or : ∀ (l : List Char) (n : Nat) (d : Char), l.getD n d ∈ l ∨ l.getD n d = d
  | [], n, d => Or.inr (by cases n <;> rfl)
  | x :: xs, 0, d => Or.inl (by simp)
  | x :: xs, n + 1, d => by
    rcases getD_mem_or xs n d with h | h
    · exact Or.inl (by simp only [List.getD_cons_succ]; exact List.mem_cons_of_mem x h)
    · exact Or.inr (by simpa using h)

/-- Every base64url digit is in the alphabet. -/
theorem b64Char_mem (n : Nat) : b64Char n ∈ b64Alphabet := by
  unfold b64Char
  rcases getD_mem_or b64Alphabet n 'A' with h | h
  · exact h
  · rw [h]; decide

/-- The base64url alphabet avoids `+`, `/` and `=`. -/
theorem b64Alphabet_no_special : ∀ c ∈ b64Alphabet, c ≠ '+' ∧ c ≠ '/' ∧ c ≠ '=' := by decide

/-- Every character of an unpadded base64url encoding is in the alphabet. -/
theorem b64UrlNoPadList_mem : ∀ (bs : List Nat), ∀ c ∈ b64UrlNoPadList bs, c ∈ b64Alphabet
  | [] => by simp [b64UrlNoPadList]
  | [a] => by
    intro c hc
    simp only [b64UrlNoPadList, List.mem_cons, List.not_mem_nil, or_false] at hc
    rcases hc with h | h <;> (subst h; exact b64Char_mem _)
  | [a, b] => by
    intro c hc
    simp only [b64UrlNoPadList, List.mem_cons, List.not_mem_nil, or_false] at hc
    rcases hc with h | h | h <;> (subst h; exact b64Char_mem _)
  | a :: b :: c0 :: rest => by
    intro c hc
    simp only [b64UrlNoPadList, List.mem_cons] at hc
    rcases hc with h | h | h | h | h
    · subst h; exact b64Char_mem _
    · subst h; exact b64Char_mem _
    · subst h; exact b64Char_mem _
    · subst h; exact b64Char_mem _
    · exact b64UrlNoPadList_mem rest c h

/-- Mapping a function that fixes every member is the identity. -/
theorem map_id_of {f : Char → Char} : ∀ (l : List Char), (∀ x ∈ l, f x = x) → l.map f = l
  | [], _ => rfl
  | x :: xs, h => by
    have hx := h x (List.mem_cons_self x xs)
    have hxs := map_id_of xs fun y hy => h y (List.mem_cons_of_mem x hy)
    simp [hx, hxs]

/-- Filtering by a predicate every member satisfies is the identity. -/
theorem filter_id_of {p : Char → Bool} : ∀ (l : List Char), (∀ x ∈ l, p x = true) → l.filter p = l
  | [], _ => rfl
  | x :: xs, h => by
    have hx := h x (List.mem_cons_self x xs)
    have hxs := filter_id_of xs fun y hy => h y (List.mem_cons_of_mem x hy)
    simp [List.filter, hx, hxs]

/-- Replacing a character that never occurs is the identity. -/
theorem replaceAllChar_id (c d : Char) (s : String) (h : ∀ x ∈ s.data, x ≠ c) :
    replaceAllChar c d s = s := by
  obtain ⟨l⟩ := s
  show String.mk (l.map _) = String.mk l
  exact congrArg String.mk (map_id_of l fun x hx => if_neg (h x hx))

/-- Removing a character that never occurs is the identity. -/
theorem removeAllChar_id (c : Char) (s : String) (h : ∀ x ∈ s.data, x ≠ c) :
    removeAllChar c s = s := by
  obtain ⟨l⟩ := s
  show String.mk (l.filter _) = String.mk l
  exact congrArg String.mk (filter_id_of l fun x hx => by simpa using h x hx)

/-- The source's `base64URLEncode` equals the plain unpadded base64url
encoding: its three `replace` passes never fire, because `+`, `/` and `=`
are not in the alphabet the encoder emits. -/
theorem base64URLEncode_eq (bs : List Nat) : CryptoUtils.base64URLEncode bs = b64UrlNoPad bs := by
  unfold CryptoUtils.base64URLEncode
  have hmem : ∀ x ∈ (b64UrlNoPad bs).data, x ∈ b64Alphabet := by
    intro x hx
    exact b64UrlNoPadList_mem bs x hx
  have h1 : replaceAllChar '+' '-' (b64UrlNoPad bs) = b64UrlNoPad bs :=
    replaceAllChar_id _ _ _ fun x hx => (b64Alphabet_no_special x (hmem x hx)).1
  rw [h1]
  have h2 : replaceAllChar '/' '_' (b64UrlNoPad bs) = b64UrlNoPad bs :=
    replaceAllChar_id _ _ _ fun x hx => (b64Alphabet_no_special x (hmem x hx)).2.1
  rw [h2]
  exact removeAllChar_id _ _ fun x hx => (b64Alphabet_no_special x (hmem x hx)).2.2

/-- The code-challenge the source computes coincides with the
spec-worded derivation. -/
theorem getCodeChallenge_eq_derive (v : String) :
    CryptoUtils.getCodeChallenge v = deriveCodeChallenge v :=
  base64URLEncode_eq (sha256Bytes (utf8Encode v))

/-- The `splitAtFirst` finds nothing when the character does not occur. -/
theorem splitAtFirst_not_mem (c : Char) :
    ∀ (l : List Char), c ∉ l → splitAtFirst c l = (l, none)
  | [], _ => rfl
  | x :: xs, h => by
    have hx : x ≠ c := fun he => h (he ▸ List.mem_cons_self x xs)
    have hxs := splitAtFirst_not_mem c xs fun hm => h (List.mem_cons_of_mem x hm)
    simp [splitAtFirst, hx, hxs]

/-- A URL with no `?` has an empty query. -/
theorem parseURL_no_query (s : String) (h : '?' ∉ s.data) :
    parseURL s = { base := s, query := [] } := by
  obtain ⟨l⟩ := s
  unfold parseURL
  rw [splitAtFirst_not_mem '?' l h]

/-- A non-blank string is not blank as an optional. -/
theorem isBlankOpt_some_false {s : String} (h : (strTrim s).data.length ≠ 0) :
    isBlankOpt (some s) = false := by
  simp only [isBlankOpt]
  exact beq_eq_false_iff_ne.mpr h

/-! ## Demonstration states used by the witnesses -/

/-- A resolved provider metadata set. -/
def demoMeta : OIDCProviderMetaData :=
  { authorization_endpoint := some "https://id.example/oauth2/authorize",
    token_endpoint := some "https://id.example/oauth2/token",
    revocation_endpoint := some "https://id.example/oauth2/revoke",
    end_session_endpoint := some "https://id.example/oidc/logout" }

/-- A valid configuration. -/
def demoConfig : AuthClientConfig :=
  { clientID := "client123",
    clientSecret := some "secret456",
    signInRedirectURL := "https://app.example/signin",
    scope := ["profile"],
    serverOrigin := "https://id.example" }

/-- A signed-in context over the demo configuration. -/
def demoState : CoreState :=
  { config := demoConfig,
    metaData := demoMeta,
    session := { access_token := some "AT0", refresh_token := some "RT0",
                 id_token := some "IDT0" },
    temp := {} }

/-! ## The claims -/

/-- C1: for every valid configuration with PKCE enabled, the
authorization-URL builder persists the fresh code verifier V to temporary
data, and `deriveCodeChallenge V` — the unpadded base64url encoding of
the SHA-256 of V's UTF-8 bytes — equals the `code_challenge` query
parameter of the returned URL, which also carries
`code_challenge_method=S256`.  (Validity of the configuration: a present,
non-blank authorization endpoint with no query string of its own.) -/
theorem C1_pkce_challenge (st : CoreState) (v : String) (ps : List (String × String))
    (ep : String)
    (hep : st.metaData.authorization_endpoint = some ep)
    (hblank : (strTrim ep).data.length ≠ 0) (hq : '?' ∉ ep.data)
    (hpkce : st.config.enablePKCE = true) :
    ∃ u, (AuthenticationCore.getAuthorizationRequest st v ps).1 = .ok u ∧
      lookupParam u.query "code_challenge" = some (deriveCodeChallenge v) ∧
      lookupParam u.query "code_challenge_method" = some "S256" ∧
      (AuthenticationCore.getAuthorizationRequest st v ps).2.temp.pkce_code_verifier = some v := by
  rw [← getCodeChallenge_eq_derive v]
  simp only [AuthenticationCore.getAuthorizationRequest, hep,
    isBlankOpt_some_false hblank, Bool.false_eq_true, if_false, hpkce]
  rw [show jsStr (some ep) = ep from rfl, parseURL_no_query ep hq]
  cases hrm : optTruthy st.config.responseMode <;>
    exact ⟨_, rfl, rfl, rfl, rfl⟩

/-- Witness for C1 at a concrete state and verifier. -/
theorem C1_pkce_challenge_witness :
    ∃ u, (AuthenticationCore.getAuthorizationRequest demoState "verifier123" []).1 = .ok u ∧
      lookupParam u.query "code_challenge" = some (deriveCodeChallenge "verifier123") ∧
      lookupParam u.query "code_challenge_method" = some "S256" ∧
      (AuthenticationCore.getAuthorizationRequest demoState
        "verifier123" []).2.temp.pkce_code_verifier = some "verifier123" :=
  C1_pkce_challenge demoState "verifier123" [] "https://id.example/oauth2/authorize"
    rfl (by decide) (by decide) rfl

/-- A standard token body used by witnesses. -/
def demoTokenBody : TokenBody :=
  { access_token := "A", id_token := "ID", token_type := "Bearer",
    expires_in := 3600, scope := "openid" }

/-- C2: for every authorization code and configuration with PKCE enabled,
on a 200 token response with a standard body, `requestAccessToken`
resolves with that token set (access token `A`), stores it verbatim as
the new SessionData, and removes the PKCE verifier from temporary
storage. -/
theorem C2_exchange_success (st : CoreState) (code sessionState : String) (b : TokenBody)
    (hpkce : st.config.enablePKCE = true)
    (hep : isBlankOpt st.metaData.token_endpoint = false) :
    (AuthenticationCore.requestAccessToken st code sessionState (.reachable 200 b)).result =
      .ok b ∧
    (AuthenticationCore.requestAccessToken st code sessionState
      (.reachable 200 b)).state.session = sessionOfTokenBody b ∧
    (AuthenticationCore.requestAccessToken st code sessionState
      (.reachable 200 b)).state.session.access_token = some b.access_token ∧
    (AuthenticationCore.requestAccessToken st code sessionState
      (.reachable 200 b)).state.temp.pkce_code_verifier = none := by
  have hax : axiosResult (HttpOutcome.reachable 200 b) = .ok (200, b) := by
    simp [axiosResult]
  simp only [AuthenticationCore.requestAccessToken, hep, hpkce, hax, Bool.false_eq_true,
    if_false, handleTokenResponse]
  refine ⟨trivial, trivial, rfl, ?_⟩
  simp

/-- Witness for C2 at a concrete state and body. -/
theorem C2_exchange_success_witness :
    (AuthenticationCore.requestAccessToken demoState "authcode" "sstate"
      (.reachable 200 demoTokenBody)).result = .ok demoTokenBody ∧
    (AuthenticationCore.requestAccessToken demoState "authcode" "sstate"
      (.reachable 200 demoTokenBody)).state.session = sessionOfTokenBody demoTokenBody ∧
    (AuthenticationCore.requestAccessToken demoState "authcode" "sstate"
      (.reachable 200 demoTokenBody)).state.session.access_token = some "A" ∧
    (AuthenticationCore.requestAccessToken demoState "authcode" "sstate"
      (.reachable 200 demoTokenBody)).state.temp.pkce_code_verifier = none :=
  C2_exchange_success demoState "authcode" "sstate" demoTokenBody rfl rfl

/-- Does a discovery outcome count as failed (transport failure, or a
reached server answering with a status other than 200)? -/
def discoveryFails {β : Type} : HttpOutcome β → Prop
  | .reachable s _ => s ≠ 200
  | .netDown _ _ => True

/-- C3: `getOIDCProviderMetaData` resolves `true` on every invocation;
when the discovery request fails (network error or non-200 status) it
does not propagate the failure but stores the deterministic fallback
endpoints — each endpoint the configured base URL plus its fixed path
suffix — and sets the initiated flag, still resolving `true`. -/
theorem C3_metadata_fallback (st : CoreState) (forceInit : Bool)
    (o : HttpOutcome OIDCProviderMetaData) :
    (AuthenticationCore.getOIDCProviderMetaData st forceInit o).result = .ok true ∧
    ((!forceInit && st.temp.op_config_initiated) = false → discoveryFails o →
      (AuthenticationCore.getOIDCProviderMetaData st forceInit o).state.metaData =
        { issuer := none,
          authorization_endpoint := some (st.config.serverOrigin ++ "/oauth2/authorize"),
          token_endpoint := some (st.config.serverOrigin ++ "/oauth2/token"),
          revocation_endpoint := some (st.config.serverOrigin ++ "/oauth2/revoke"),
          end_session_endpoint := some (st.config.serverOrigin ++ "/oidc/logout"),
          jwks_uri := some (st.config.serverOrigin ++ "/oauth2/jwks"),
          userinfo_endpoint := none,
          introspection_endpoint := none,
          registration_endpoint := none,
          check_session_iframe := some (st.config.serverOrigin ++ "/oidc/checksession") } ∧
      (AuthenticationCore.getOIDCProviderMetaData st forceInit
        o).state.temp.op_config_initiated = true) := by
  by_cases hm : (!forceInit && st.temp.op_config_initiated) = true
  · refine ⟨by simp [AuthenticationCore.getOIDCProviderMetaData, hm], fun hc => ?_⟩
    rw [hm] at hc
    exact absurd hc (by simp)
  · have hm' : (!forceInit && st.temp.op_config_initiated) = false :=
      Bool.eq_false_iff.mpr hm
    cases o with
    | netDown c m =>
      refine ⟨?_, fun _ _ => ⟨?_, ?_⟩⟩ <;>
        simp [AuthenticationCore.getOIDCProviderMetaData, hm', axiosResult,
          resolveFallbackEndpoints]
    | reachable status data =>
      by_cases h2 : 200 ≤ status ∧ status < 300
      · by_cases h200 : status = 200
        · subst h200
          refine ⟨?_, fun _ hf => absurd rfl hf⟩
          simp [AuthenticationCore.getOIDCProviderMetaData, hm', axiosResult]
        · refine ⟨?_, fun _ _ => ⟨?_, ?_⟩⟩ <;>
            simp [AuthenticationCore.getOIDCProviderMetaData, hm', axiosResult, h2, h200,
              resolveFallbackEndpoints]
      · refine ⟨?_, fun _ _ => ⟨?_, ?_⟩⟩ <;>
          simp [AuthenticationCore.getOIDCProviderMetaData, hm', axiosResult, h2,
            resolveFallbackEndpoints]

/-- Witness for C3: an uninitialised context whose discovery request dies
on the network. -/
theorem C3_metadata_fallback_witness :
    (AuthenticationCore.getOIDCProviderMetaData demoState false
      (.netDown (some "ECONNREFUSED") none)).result = .ok true ∧
    (AuthenticationCore.getOIDCProviderMetaData demoState false
      (.netDown (some "ECONNREFUSED") none)).state.metaData =
      { issuer := none,
        authorization_endpoint := some "https://id.example/oauth2/authorize",
        token_endpoint := some "https://id.example/oauth2/token",
        revocation_endpoint := some "https://id.example/oauth2/revoke",
        end_session_endpoint := some "https://id.example/oidc/logout",
        jwks_uri := some "https://id.example/oauth2/jwks",
        userinfo_endpoint := none,
        introspection_endpoint := none,
        registration_endpoint := none,
        check_session_iframe := some "https://id.example/oidc/checksession" } ∧
    (AuthenticationCore.getOIDCProviderMetaData demoState false
      (.netDown (some "ECONNREFUSED") none)).state.temp.op_config_initiated = true := by
  have h := C3_metadata_fallback demoState false (.netDown (some "ECONNREFUSED") none)
  exact ⟨h.1, (h.2 rfl trivial).1, (h.2 rfl trivial).2⟩

/-- C4 counterexample: at a concrete state and a reached 204 response the
rejection surfaced by `revokeAccessToken` is not the invalid-response
exception but the network exception the trailing `.catch` wraps it into
(the `.catch` also fires for rejections raised inside the `.then`
handler); the session is nevertheless left unchanged. -/
theorem C4_revoke_counterexample :
    (AuthenticationCore.revokeAccessToken demoState (.reachable 204 "")).result =
      .error (wrapNetwork "AUTH_CORE-RAT3-NR03" "revokeAccessToken"
        "The request to revoke access token failed." revokeInvalidResponseError) ∧
    wrapNetwork "AUTH_CORE-RAT3-NR03" "revokeAccessToken"
        "The request to revoke access token failed." revokeInvalidResponseError ≠
      revokeInvalidResponseError ∧
    (AuthenticationCore.revokeAccessToken demoState (.reachable 204 "")).state = demoState := by
  refine ⟨rfl, ?_, rfl⟩
  intro h
  simp [wrapNetwork, revokeInvalidResponseError, coreExc] at h

/-- C4 (amended): on any status other than 200 `revokeAccessToken`
rejects — for a 2xx status the invalid-response error raised on the
non-200 branch is surfaced re-wrapped inside the network exception of the
trailing catch, for any other outcome the transport error is so wrapped —
and the existing session data is left unchanged (clearing happens only on
the exact-200 path). -/
theorem C4_revoke_non200 (st : CoreState) (status : Nat) (body : String)
    (hep : isBlankOpt st.metaData.revocation_endpoint = false)
    (hst : status ≠ 200) :
    (∃ e, (AuthenticationCore.revokeAccessToken st (.reachable status body)).result =
      .error e) ∧
    ((200 ≤ status ∧ status < 300) →
      (AuthenticationCore.revokeAccessToken st (.reachable status body)).result =
        .error (wrapNetwork "AUTH_CORE-RAT3-NR03" "revokeAccessToken"
          "The request to revoke access token failed." revokeInvalidResponseError)) ∧
    (AuthenticationCore.revokeAccessToken st (.reachable status body)).state = st := by
  have hb : (status != 200) = true := bne_iff_ne.mpr hst
  by_cases h2 : 200 ≤ status ∧ status < 300
  · have hax : axiosResult (HttpOutcome.reachable status body) = .ok (status, body) := by
      simp [axiosResult, h2]
    simp only [AuthenticationCore.revokeAccessToken, hep, Bool.false_eq_true, if_false,
      hax, hb, if_true]
    exact ⟨⟨_, rfl⟩, fun _ => trivial, trivial⟩
  · have hax : axiosResult (HttpOutcome.reachable status body) =
        .error (.axiosError none none (some status) none) := by
      simp [axiosResult, h2]
    simp only [AuthenticationCore.revokeAccessToken, hep, Bool.false_eq_true, if_false, hax]
    exact ⟨⟨_, rfl⟩, fun hc => absurd hc h2, trivial⟩

/-- Witness for the amended C4 at a concrete state and a 204 response. -/
theorem C4_revoke_non200_witness :
    (AuthenticationCore.revokeAccessToken demoState (.reachable 204 "ok")).result =
      .error (wrapNetwork "AUTH_CORE-RAT3-NR03" "revokeAccessToken"
        "The request to revoke access token failed." revokeInvalidResponseError) ∧
    (AuthenticationCore.revokeAccessToken demoState (.reachable 204 "ok")).state = demoState :=
  ⟨(C4_revoke_non200 demoState 204 "ok" rfl (by decide)).2.1 (by decide),
   (C4_revoke_non200 demoState 204 "ok" rfl (by decide)).2.2⟩

/-- C6: whenever the stored session has no refresh token,
`refreshAccessToken` rejects with the missing-refresh-token error,
issues no network request, and writes nothing to session or temporary
data. -/
theorem C6_refresh_missing_token (st : CoreState) (o : HttpOutcome TokenBody)
    (h : jsFalsyOpt st.session.refresh_token = true) :
    (AuthenticationCore.refreshAccessToken st o).result = .error missingRefreshTokenError ∧
    (AuthenticationCore.refreshAccessToken st o).state = st ∧
    (AuthenticationCore.refreshAccessToken st o).requests = [] := by
  simp only [AuthenticationCore.refreshAccessToken, h, if_true]
  exact ⟨trivial, trivial, trivial⟩

/-- A context whose session has an access token but no refresh token. -/
def demoStateNoRefresh : CoreState :=
  { demoState with session := { access_token := some "AT0", id_token := some "IDT0" } }

/-- Witness for C6 at a concrete state (the transport, had it been
consulted, would have answered 200). -/
theorem C6_refresh_missing_token_witness :
    (AuthenticationCore.refreshAccessToken demoStateNoRefresh
      (.reachable 200 demoTokenBody)).result = .error missingRefreshTokenError ∧
    (AuthenticationCore.refreshAccessToken demoStateNoRefresh
      (.reachable 200 demoTokenBody)).state = demoStateNoRefresh ∧
    (AuthenticationCore.refreshAccessToken demoStateNoRefresh
      (.reachable 200 demoTokenBody)).requests = [] :=
  C6_refresh_missing_token demoStateNoRefresh (.reachable 200 demoTokenBody) rfl

/-- A first context: certificate pinned, cookies forwarded. -/
def httpsCfgA : AuthClientConfig :=
  { clientID := "clientA", signInRedirectURL := "https://a.example/cb",
    certificate := some "certA", sendCookiesInRequests := true,
    serverOrigin := "https://a.example" }

/-- A second context with a distinct data-layer identity: no certificate,
no cookies. -/
def httpsCfgB : AuthClientConfig :=
  { clientID := "clientB", signInRedirectURL := "https://b.example/cb",
    certificate := none, sendCookiesInRequests := false,
    serverOrigin := "https://b.example" }

/-- C7 counterexample: the static `httpsClient` slot is process-wide, not
per data-layer identity — after context 0 (config A) created the
instance, context 1 (config B) obtains that same instance, configured
with A's trust anchor and cookie policy rather than its own. -/
theorem C7_transport_counterexample :
    ((HttpsClient.getInstance ((HttpsClient.getInstance none 0 httpsCfgA).2) 1
        httpsCfgB).1.withCredentials = true ∧
      httpsCfgB.sendCookiesInRequests = false) ∧
    ((HttpsClient.getInstance ((HttpsClient.getInstance none 0 httpsCfgA).2) 1
        httpsCfgB).1.agentCA = some "certA" ∧
      httpsCfgB.certificate = none) ∧
    (HttpsClient.getInstance ((HttpsClient.getInstance none 0 httpsCfgA).2) 1
        httpsCfgB).1.ownerId = 0 := by
  exact ⟨⟨rfl, rfl⟩, ⟨rfl, rfl⟩, rfl⟩

/-- C7 (amended): the transport client is a single process-wide shared
instance: the first `getInstance` call constructs it from the calling
context's configuration (trust anchor honoured only when a certificate is
configured, cookie policy always), every later call — whatever data-layer
identity or configuration it presents — returns that cached instance
unchanged, and repeated requests within one context therefore reuse it. -/
theorem C7_transport_singleton (cached : Option HttpsClientInst) (id1 id2 : Nat)
    (cfg1 cfg2 : AuthClientConfig) (c : HttpsClientInst) :
    (HttpsClient.getInstance none id1 cfg1).1 = mkHttpsClient id1 cfg1 ∧
    (cached = some c → HttpsClient.getInstance cached id2 cfg2 = (c, some c)) ∧
    (HttpsClient.getInstance ((HttpsClient.getInstance none id1 cfg1).2) id1 cfg1).1 =
      (HttpsClient.getInstance none id1 cfg1).1 := by
  refine ⟨rfl, fun hc => ?_, rfl⟩
  rw [hc]
  rfl

/-- Witness for the amended C7: a filled cache is returned as is. -/
theorem C7_transport_singleton_witness :
    (HttpsClient.getInstance none 0 httpsCfgA).1 = mkHttpsClient 0 httpsCfgA ∧
    HttpsClient.getInstance (some (mkHttpsClient 0 httpsCfgA)) 1 httpsCfgB =
      (mkHttpsClient 0 httpsCfgA, some (mkHttpsClient 0 httpsCfgA)) ∧
    (HttpsClient.getInstance ((HttpsClient.getInstance none 0 httpsCfgA).2) 0 httpsCfgA).1 =
      (HttpsClient.getInstance none 0 httpsCfgA).1 :=
  ⟨(C7_transport_singleton (some (mkHttpsClient 0 httpsCfgA)) 0 1 httpsCfgA httpsCfgB
      (mkHttpsClient 0 httpsCfgA)).1,
   (C7_transport_singleton (some (mkHttpsClient 0 httpsCfgA)) 0 1 httpsCfgA httpsCfgB
      (mkHttpsClient 0 httpsCfgA)).2.1 rfl,
   (C7_transport_singleton (some (mkHttpsClient 0 httpsCfgA)) 0 1 httpsCfgA httpsCfgB
      (mkHttpsClient 0 httpsCfgA)).2.2⟩

/-- C8: `getSignOutURL` requires a non-blank end-session endpoint, a
non-blank stored id token and a configured callback URL (sign-out
redirect, else sign-in redirect); each missing precondition raises its
own distinct not-found error, and when all hold the returned string is
exactly `<endpoint>?id_token_hint=<id_token>&post_logout_redirect_uri=<callback>&state=<fixed success marker>`. -/
theorem C8_signout_url (st : CoreState) :
    (isBlankOpt st.metaData.end_session_endpoint = true →
      AuthenticationCore.getSignOutURL st = .error signOutEndpointNotFoundError) ∧
    (isBlankOpt st.metaData.end_session_endpoint = false →
      isBlankOpt st.session.id_token = true →
      AuthenticationCore.getSignOutURL st = .error signOutIdTokenNotFoundError) ∧
    (isBlankOpt st.metaData.end_session_endpoint = false →
      isBlankOpt st.session.id_token = false →
      (strTrim (st.config.signOutRedirectURL.getD st.config.signInRedirectURL)).data.length =
        0 →
      AuthenticationCore.getSignOutURL st = .error signOutCallbackNotFoundError) ∧
    (isBlankOpt st.metaData.end_session_endpoint = false →
      isBlankOpt st.session.id_token = false →
      (strTrim (st.config.signOutRedirectURL.getD st.config.signInRedirectURL)).data.length ≠
        0 →
      AuthenticationCore.getSignOutURL st =
        .ok (jsStr st.metaData.end_session_endpoint ++ "?id_token_hint=" ++
          jsStr st.session.id_token ++ "&post_logout_redirect_uri=" ++
          st.config.signOutRedirectURL.getD st.config.signInRedirectURL ++ "&state=" ++
          SIGN_OUT_SUCCESS_PARAM)) ∧
    (signOutEndpointNotFoundError ≠ signOutIdTokenNotFoundError ∧
      signOutEndpointNotFoundError ≠ signOutCallbackNotFoundError ∧
      signOutIdTokenNotFoundError ≠ signOutCallbackNotFoundError) := by
  refine ⟨?_, ?_, ?_, ?_, ?_, ?_, ?_⟩
  · intro h1
    simp [AuthenticationCore.getSignOutURL, h1]
  · intro h1 h2
    simp [AuthenticationCore.getSignOutURL, h1, h2]
  · intro h1 h2 h3
    simp [AuthenticationCore.getSignOutURL, h1, h2, h3]
  · intro h1 h2 h3
    have h3' : ¬(strTrim (st.config.signOutRedirectURL.getD
        st.config.signInRedirectURL)).length = 0 := h3
    simp [AuthenticationCore.getSignOutURL, h1, h2, h3']
  · intro h
    simp [signOutEndpointNotFoundError, signOutIdTokenNotFoundError, coreExc] at h
  · intro h
    simp [signOutEndpointNotFoundError, signOutCallbackNotFoundError, coreExc] at h
  · intro h
    simp [signOutIdTokenNotFoundError, signOutCallbackNotFoundError, coreExc] at h

/-- Witness for C8: the sign-out URL of the demo context (no sign-out
redirect configured, so the sign-in redirect is the callback), and the
id-token error after the session is cleared. -/
theorem C8_signout_url_witness :
    AuthenticationCore.getSignOutURL demoState =
      .ok ("https://id.example/oidc/logout?id_token_hint=IDT0&post_logout_redirect_uri=" ++
        "https://app.example/signin&state=" ++ SIGN_OUT_SUCCESS_PARAM) ∧
    AuthenticationCore.getSignOutURL (clearUserSessionData demoState) =
      .error signOutIdTokenNotFoundError := by
  constructor
  · have h := (C8_signout_url demoState).2.2.2.1 rfl rfl (by decide)
    rw [h]
    rfl
  · exact (C8_signout_url (clearUserSessionData demoState)).2.1 rfl rfl

/-- C9 counterexample: a token whose middle segment `e30!` is not valid
base64url does not fail with the token-decoding error, contrary to the
claim — the backing Buffer decoder skips the invalid `!`, the remaining
`e30` decodes to the empty claim map, and `decodeIDToken` succeeds. -/
theorem C9_decode_counterexample :
    CryptoUtils.decodeIDToken "h.e30!.s" = .ok (Json.obj []) ∧
    (Except.ok (Json.obj []) : Except JsError Json) ≠ .error tokenDecodingError := by
  refine ⟨rfl, ?_⟩
  intro h
  simp at h

/-- C9 (amended): `decodeIDToken` is total in the error monad — when the
middle dot-separated segment is missing, or when the segment's
base64url decoding (which, as in the backing Buffer decoder, skips
characters outside the base64 alphabets rather than failing) yields
bytes that are not JSON, it fails with the one token-decoding error, and
nothing else can ever be raised; otherwise it returns the parsed claim
map of the middle segment, the header and signature segments never being
verified. -/
theorem C9_decode_total (s : String) :
    (∀ e, CryptoUtils.decodeIDToken s = .error e → e = tokenDecodingError) ∧
    ((splitOnChar '.' s.data).get? 1 = none →
      CryptoUtils.decodeIDToken s = .error tokenDecodingError) ∧
    (∀ seg, (splitOnChar '.' s.data).get? 1 = some seg →
      jsonParse (String.mk (utf8DecodeLenient (b64UrlDecodeBytes (String.mk seg)))) = none →
      CryptoUtils.decodeIDToken s = .error tokenDecodingError) ∧
    (∀ seg j, (splitOnChar '.' s.data).get? 1 = some seg →
      jsonParse (String.mk (utf8DecodeLenient (b64UrlDecodeBytes (String.mk seg)))) = some j →
      CryptoUtils.decodeIDToken s = .ok j) := by
  refine ⟨?_, ?_, ?_, ?_⟩
  · intro e he
    unfold CryptoUtils.decodeIDToken at he
    split at he
    · exact (Except.error.inj he).symm
    · split at he
      · exact (Except.error.inj he).symm
      · simp at he
  · intro h1
    simp only [CryptoUtils.decodeIDToken, h1]
  · intro seg h1 h2
    simp only [CryptoUtils.decodeIDToken, h1, h2]
  · intro seg j h1 h2
    simp only [CryptoUtils.decodeIDToken, h1, h2]

/-- Witness for the amended C9: a well-formed token with payload segment
`eyJzdWIiOiIxIn0` (the claim map `sub ↦ "1"`), a token with no middle
segment, and a token whose middle segment decodes (after the invalid
characters are skipped, here to nothing at all) to a non-JSON string. -/
theorem C9_decode_total_witness :
    CryptoUtils.decodeIDToken "e30.eyJzdWIiOiIxIn0.c2ln" =
      .ok (Json.obj [("sub", Json.str "1")]) ∧
    CryptoUtils.decodeIDToken "onlyheader" = .error tokenDecodingError ∧
    CryptoUtils.decodeIDToken "a.!!!.b" = .error tokenDecodingError :=
  ⟨(C9_decode_total _).2.2.2 _ _ rfl rfl,
   (C9_decode_total _).2.1 rfl,
   (C9_decode_total _).2.2.1 _ rfl rfl⟩

/-- String concatenation is associative. -/
theorem strAppend_assoc (a b c : String) : a ++ b ++ c = a ++ (b ++ c) := by
  obtain ⟨la⟩ := a
  obtain ⟨lb⟩ := b
  obtain ⟨lc⟩ := c
  show String.mk (la ++ lb ++ lc) = String.mk (la ++ (lb ++ lc))
  rw [List.append_assoc]

/-- C10 (implicit): the token-exchange, refresh and revocation request
bodies are raw `key=value` strings joined with `&` — no percent-encoding
is applied, so any client id, client secret, authorization code, refresh
token or access token appears verbatim (even when it contains `&` or
`=`) — whereas the authorization URL serializer percent-encodes every
key and value the `URLSearchParams` way (`&` becomes `%26`, `=` becomes
`%3D`). -/
theorem C10_raw_bodies (cfg : AuthClientConfig) (code rt tok sec : String) (v : Option String)
    (hsec : cfg.clientSecret = some sec) (hsecnb : (strTrim sec).data.length > 0)
    (hpkce : cfg.enablePKCE = true) :
    String.intercalate "&" (accessTokenRequestBody cfg code v) =
      "client_id=" ++ cfg.clientID ++ "&" ++ "client_secret=" ++ sec ++ "&" ++ "code=" ++
        code ++ "&" ++ "grant_type=authorization_code" ++ "&" ++ "redirect_uri=" ++
        cfg.signInRedirectURL ++ "&" ++ "code_verifier=" ++ jsStr v ∧
    String.intercalate "&" (refreshTokenRequestBody cfg rt) =
      "client_id=" ++ cfg.clientID ++ "&" ++ "refresh_token=" ++ rt ++ "&" ++
        "grant_type=refresh_token" ++ "&" ++ "client_secret=" ++ sec ∧
    String.intercalate "&" (revokeTokenRequestBody cfg (some tok)) =
      "client_id=" ++ cfg.clientID ++ "&" ++ "token=" ++ tok ++ "&" ++
        "token_type_hint=access_token" ∧
    (∀ k val, serializeQuery [(k, val)] = formUrlEncode k ++ "=" ++ formUrlEncode val) ∧
    formUrlEncode "a&b=c" = "a%26b%3Dc" ∧ formUrlEncode "&" = "%26" ∧
    formUrlEncode "=" = "%3D" := by
  have hcs : clientSecretParams cfg = ["client_secret=" ++ sec] := by
    simp only [clientSecretParams, hsec]
    rw [if_pos hsecnb]
  refine ⟨?_, ?_, ?_, fun k val => rfl, by decide, by decide, by decide⟩
  · simp only [accessTokenRequestBody, hcs, hpkce, if_true, List.cons_append,
      List.nil_append, List.singleton_append]
    simp only [String.intercalate, String.intercalate.go, strAppend_assoc]
  · simp only [refreshTokenRequestBody, hcs, List.cons_append, List.nil_append,
      List.singleton_append]
    simp only [String.intercalate, String.intercalate.go, strAppend_assoc]
  · simp only [revokeTokenRequestBody, jsStr, Option.getD_some]
    simp only [String.intercalate, String.intercalate.go, strAppend_assoc]

/-- Witness for C10: a configuration whose secret, and a code, refresh
token and access token, all contain `&` and `=`; the bodies carry them
verbatim while the URL serializer escapes them. -/
theorem C10_raw_bodies_witness :
    String.intercalate "&" (accessTokenRequestBody
        { demoConfig with clientSecret := some "s&c=ret" } "co&de=1" (some "ver")) =
      "client_id=" ++ "client123" ++ "&" ++ "client_secret=" ++ "s&c=ret" ++ "&" ++
        "code=" ++ "co&de=1" ++ "&" ++ "grant_type=authorization_code" ++ "&" ++
        "redirect_uri=" ++ "https://app.example/signin" ++ "&" ++ "code_verifier=" ++
        jsStr (some "ver") ∧
    String.intercalate "&" (refreshTokenRequestBody
        { demoConfig with clientSecret := some "s&c=ret" } "r&t=2") =
      "client_id=" ++ "client123" ++ "&" ++ "refresh_token=" ++ "r&t=2" ++ "&" ++
        "grant_type=refresh_token" ++ "&" ++ "client_secret=" ++ "s&c=ret" ∧
    String.intercalate "&" (revokeTokenRequestBody
        { demoConfig with clientSecret := some "s&c=ret" } (some "a&t=3")) =
      "client_id=" ++ "client123" ++ "&" ++ "token=" ++ "a&t=3" ++ "&" ++
        "token_type_hint=access_token" ∧
    serializeQuery [("k", "a&b=c")] = formUrlEncode "k" ++ "=" ++ formUrlEncode "a&b=c" := by
  have h := C10_raw_bodies { demoConfig with clientSecret := some "s&c=ret" }
    "co&de=1" "r&t=2" "a&t=3" "s&c=ret" (some "ver") rfl (by decide) rfl
  exact ⟨h.1, h.2.1, h.2.2.1, h.2.2.2.1 "k" "a&b=c"⟩

/-- One `getAuthorizationURL` call in a context whose scope list is
`["profile"]` or already `["profile", "openid"]`: it succeeds, its
`scope` query parameter is exactly `"profile openid"`, the stored scope
list afterwards is `["profile", "openid"]`, and the provider metadata is
untouched. -/
theorem authRequest_profile_step (st : CoreState) (v : String) (ep : String)
    (hep : st.metaData.authorization_endpoint = some ep)
    (hblank : (strTrim ep).data.length ≠ 0) (hq : '?' ∉ ep.data)
    (hs : st.config.scope = ["profile"] ∨ st.config.scope = ["profile", "openid"]) :
    ∃ u, (AuthenticationCore.getAuthorizationRequest st v []).1 = .ok u ∧
      lookupParam u.query "scope" = some "profile openid" ∧
      (AuthenticationCore.getAuthorizationRequest st v []).2.config.scope =
        ["profile", "openid"] ∧
      (AuthenticationCore.getAuthorizationRequest st v []).2.metaData = st.metaData := by
  rcases hs with hs | hs <;>
    (simp only [AuthenticationCore.getAuthorizationRequest, hep,
       isBlankOpt_some_false hblank, Bool.false_eq_true, if_false, hs]
     rw [show jsStr (some ep) = ep from rfl, parseURL_no_query ep hq]
     cases hrm : optTruthy st.config.responseMode <;>
       exact ⟨_, rfl, by first | rfl | trivial, by first | rfl | trivial,
         by first | rfl | trivial⟩)

/-- Every URL produced by any number of iterated calls in a
`["profile"]`-scoped context carries scope `"profile openid"`. -/
theorem authIterate_profile (n : Nat) :
    ∀ (st : CoreState) (vs : Nat → String) (ep : String),
      st.metaData.authorization_endpoint = some ep →
      (strTrim ep).data.length ≠ 0 → '?' ∉ ep.data →
      (st.config.scope = ["profile"] ∨ st.config.scope = ["profile", "openid"]) →
      ∀ r ∈ (AuthenticationCore.authIterate n st vs).1,
        ∃ u, r = .ok u ∧ lookupParam u.query "scope" = some "profile openid" := by
  induction n with
  | zero =>
    intro st vs ep _ _ _ _ r hr
    simp [AuthenticationCore.authIterate] at hr
  | succ m ih =>
    intro st vs ep hep hblank hq hs r hr
    obtain ⟨u, hu1, hu2, hu3, hu4⟩ := authRequest_profile_step st (vs 0) ep hep hblank hq hs
    simp only [AuthenticationCore.authIterate] at hr
    rcases List.mem_cons.mp hr with hr | hr
    · exact ⟨u, hr ▸ hu1, hu2⟩
    · exact ih (AuthenticationCore.getAuthorizationRequest st (vs 0) []).2 _ ep
        (by rw [hu4]; exact hep) hblank hq (Or.inr hu3) r hr

/-- C5: given a configuration whose scope list is `["profile"]`, the
`scope` query parameter of every URL returned across any number of
successive `getAuthorizationURL` calls is `"profile openid"` — the
space-delimited list containing `"profile"` and the mandatory `"openid"`
scope each exactly once. -/
theorem C5_scope_exactly_once (st : CoreState) (vs : Nat → String) (n : Nat) (ep : String)
    (hscope : st.config.scope = ["profile"])
    (hep : st.metaData.authorization_endpoint = some ep)
    (hblank : (strTrim ep).data.length ≠ 0) (hq : '?' ∉ ep.data) :
    ∀ r ∈ (AuthenticationCore.authIterate n st vs).1,
      ∃ u, r = .ok u ∧ lookupParam u.query "scope" = some "profile openid" ∧
        ((splitOnChar ' ' "profile openid".data).map String.mk).count "profile" = 1 ∧
        ((splitOnChar ' ' "profile openid".data).map String.mk).count "openid" = 1 := by
  intro r hr
  obtain ⟨u, h1, h2⟩ := authIterate_profile n st vs ep hep hblank hq (Or.inl hscope) r hr
  exact ⟨u, h1, h2, by decide, by decide⟩

/-- Witness for C5: the first of three successive calls on the demo
context. -/
theorem C5_scope_exactly_once_witness :
    ∃ u, (AuthenticationCore.getAuthorizationRequest demoState "vX" []).1 = .ok u ∧
      lookupParam u.query "scope" = some "profile openid" ∧
      ((splitOnChar ' ' "profile openid".data).map String.mk).count "profile" = 1 ∧
      ((splitOnChar ' ' "profile openid".data).map String.mk).count "openid" = 1 :=
  C5_scope_exactly_once demoState (fun _ => "vX") 3 "https://id.example/oauth2/authorize"
    rfl rfl (by decide) (by decide)
    ((AuthenticationCore.getAuthorizationRequest demoState "vX" []).1)
    (List.mem_cons_self _ _)

end AsgardeoModel
